import Mathlib

/-!
Verification development for the Finance-AI frontend (src/frontend/App.jsx and
the companion Next.js components under src/unnamed and src/frontend).

The development shallowly embeds the two core units of the application:
the analysis session store (`useAnalysisStore` in App.jsx: `setInput` and
`fetchAnalysis`) and the forecast chart transform (`PriceForecast` in App.jsx),
together with the JavaScript runtime values and library functions they rely on
(JSON values, truthiness, `String.prototype.split` / `trim` / `toUpperCase`,
`Array.prototype.join`, `parseInt`, `JSON.parse`).
-/

namespace FinanceAI

/-- Model of a JavaScript number as produced by the code under study.
JavaScript numbers are IEEE doubles; every finite double value is an exact
rational, and the program performs no arithmetic on numbers (only equality,
truthiness and storage), so finite values are modelled exactly as rationals
and `NaN` (the result of a failed `parseInt`) is a separate constructor. -/
inductive JsNum where
  | nan
  | fin (q : ℚ)
deriving DecidableEq, Repr

/-- Model of a JavaScript/JSON value: the values that flow through
`response.data`, `JSON.parse` and the zustand store. `undefined` (an absent
property) is modelled as `Option.none` at use sites via `getProp`. -/
inductive Js where
  | null
  | bool (b : Bool)
  | num (n : JsNum)
  | str (s : String)
  | arr (elems : List Js)
  | obj (fields : List (String × Js))

/-- JavaScript truthiness for a number: `NaN` and `0` are falsy. -/
def jsNumTruthy : JsNum → Bool
  | .nan => false
  | .fin q => q != 0

/-- JavaScript truthiness of a value: `null`, `false`, `0`, `NaN` and `""`
are falsy; every object and array is truthy. -/
def jsTruthy : Js → Bool
  | .null => false
  | .bool b => b
  | .num n => jsNumTruthy n
  | .str s => s != ""
  | .arr _ => true
  | .obj _ => true

/-- Truthiness of a possibly-absent value: `undefined` is falsy. -/
def jsTruthyOpt : Option Js → Bool
  | none => false
  | some v => jsTruthy v

/-- Property access `v[k]` on a model value: `none` models `undefined`.
Property access on primitives yields `undefined` (the code never accesses a
property of `null`/`undefined` except where the surrounding checks prevent
it, so the `TypeError` on those is not modelled here). -/
def getProp (v : Js) (k : String) : Option Js :=
  match v with
  | .obj fields => fields.lookup k
  | _ => none

/-- Model of JavaScript string coercion `String(v)` as used by
`new Error(v)` and template literals. Formatting of non-integer numbers,
arrays and objects is approximate; the development only ever observes this
function on string values. -/
def jsToString : Js → String
  | .null => "null"
  | .bool b => if b then "true" else "false"
  | .num .nan => "NaN"
  | .num (.fin q) => if q.den = 1 then toString q.num else toString q
  | .str s => s
  | .arr _ => ""
  | .obj _ => "[object Object]"

/-- Model of the JavaScript idiom `a || b` for a possibly-absent value `a`
coerced to string, as in `error.response.data.detail || error.message`. -/
def jsOrStr (a : Option Js) (b : String) : String :=
  match a with
  | some v => if jsTruthy v then jsToString v else b
  | none => b

/-- Model of `String.prototype.split(sep)` for a one-character separator,
at the character-list level. `"".split(",")` is `[""]`, matching JS. -/
def jsSplitChar (sep : Char) : List Char → List (List Char)
  | [] => [[]]
  | c :: cs =>
    if c = sep then [] :: jsSplitChar sep cs
    else
      match jsSplitChar sep cs with
      | g :: gs => (c :: g) :: gs
      | [] => [[c]]

/-- Lifting of the split model to strings. -/
def jsSplit (sep : Char) (s : String) : List String :=
  (jsSplitChar sep s.data).map String.mk

/-- Model of `String.prototype.trim` at the character-list level: drop
leading and trailing whitespace (the core JS whitespace characters). -/
def jsTrimChar (l : List Char) : List Char :=
  ((l.dropWhile Char.isWhitespace).reverse.dropWhile Char.isWhitespace).reverse

/-- Lifting of the trim model to strings. -/
def jsTrim (s : String) : String :=
  String.mk (jsTrimChar s.data)

/-- Model of `Array.prototype.join(sep)` at the character-list level. -/
def jsJoinChar (sep : List Char) : List (List Char) → List Char
  | [] => []
  | [x] => x
  | x :: y :: xs => x ++ sep ++ jsJoinChar sep (y :: xs)

/-- Lifting of the join model to an array of strings. -/
def jsJoin (sep : String) (l : List String) : String :=
  String.mk (jsJoinChar sep.data (l.map String.data))

/-- Digit run to natural number, for `parseInt`. -/
def digitsToNat (l : List Char) : Nat :=
  l.foldl (fun a c => a * 10 + (c.toNat - '0'.toNat)) 0

/-- Model of JavaScript `parseInt(s, 10)`: skip leading whitespace, read an
optional sign and a leading run of decimal digits; `NaN` when no digit is
found. (Precision loss of huge doubles is not modelled; the program stores
the value without arithmetic.) -/
def parseIntB10 (s : String) : JsNum :=
  let t := s.data.dropWhile Char.isWhitespace
  let signAndRest : Bool × List Char :=
    match t with
    | '-' :: r => (true, r)
    | '+' :: r => (false, r)
    | _ => (false, t)
  let ds := signAndRest.2.takeWhile Char.isDigit
  if ds.isEmpty then .nan
  else .fin (if signAndRest.1 then -(digitsToNat ds : ℚ) else (digitsToNat ds : ℚ))

/-- Model of `String.prototype.toUpperCase` (ASCII; the code only upper-cases
ticker symbols). -/
def jsToUpperCase (s : String) : String := s.toUpper

mutual

/-- Fuel-based recursive-descent model of `JSON.parse` (value parser):
returns the parsed value and the remaining input. The modelled grammar covers
`null`, booleans, integer and decimal-fraction numbers, strings without
escape sequences, arrays and objects — the JSON subset exchanged by this
application. Inputs outside the subset are rejected. -/
def parseVal : Nat → List Char → Option (Js × List Char)
  | 0, _ => none
  | fuel + 1, input =>
    match input.dropWhile Char.isWhitespace with
    | 'n' :: 'u' :: 'l' :: 'l' :: rest => some (.null, rest)
    | 't' :: 'r' :: 'u' :: 'e' :: rest => some (.bool true, rest)
    | 'f' :: 'a' :: 'l' :: 's' :: 'e' :: rest => some (.bool false, rest)
    | '"' :: rest =>
      match parseStringBody fuel rest with
      | some (s, rest2) => some (.str s, rest2)
      | none => none
    | '[' :: rest =>
      (match rest.dropWhile Char.isWhitespace with
       | ']' :: rest2 => some (.arr [], rest2)
       | _ =>
         match parseElems fuel rest with
         | some (es, rest2) => some (.arr es, rest2)
         | none => none)
    | '{' :: rest =>
      (match rest.dropWhile Char.isWhitespace with
       | '}' :: rest2 => some (.obj [], rest2)
       | _ =>
         match parseFields fuel rest with
         | some (fs, rest2) => some (.obj fs, rest2)
         | none => none)
    | '-' :: rest =>
      match parseNumBody fuel rest with
      | some (q, rest2) => some (.num (.fin (-q)), rest2)
      | none => none
    | c :: rest =>
      if c.isDigit then
        match parseNumBody fuel (c :: rest) with
        | some (q, rest2) => some (.num (.fin q), rest2)
        | none => none
      else none
    | [] => none

/-- String body after the opening quote; escape sequences are outside the
modelled subset and rejected. -/
def parseStringBody : Nat → List Char → Option (String × List Char)
  | 0, _ => none
  | _ + 1, input =>
    let body := input.takeWhile (fun c => c ≠ '"' ∧ c ≠ '\\')
    match input.drop body.length with
    | '"' :: rest => some (String.mk body, rest)
    | _ => none

/-- Number body: a digit run with an optional decimal fraction. -/
def parseNumBody : Nat → List Char → Option (ℚ × List Char)
  | 0, _ => none
  | _ + 1, input =>
    let ds := input.takeWhile Char.isDigit
    if ds.isEmpty then none
    else
      let rest := input.drop ds.length
      match rest with
      | '.' :: rest2 =>
        let fs := rest2.takeWhile Char.isDigit
        if fs.isEmpty then none
        else
          some ((digitsToNat ds : ℚ) + (digitsToNat fs : ℚ) / ((10 : ℚ) ^ fs.length),
                rest2.drop fs.length)
      | _ => some ((digitsToNat ds : ℚ), rest)

/-- Comma-separated array elements. -/
def parseElems : Nat → List Char → Option (List Js × List Char)
  | 0, _ => none
  | fuel + 1, input =>
    match parseVal fuel input with
    | some (v, rest) =>
      match rest.dropWhile Char.isWhitespace with
      | ',' :: rest2 =>
        (match parseElems fuel rest2 with
         | some (vs, rest3) => some (v :: vs, rest3)
         | none => none)
      | ']' :: rest2 => some ([v], rest2)
      | _ => none
    | none => none

/-- Comma-separated `"key": value` object fields. -/
def parseFields : Nat → List Char → Option (List (String × Js) × List Char)
  | 0, _ => none
  | fuel + 1, input =>
    match input.dropWhile Char.isWhitespace with
    | '"' :: rest =>
      match parseStringBody fuel rest with
      | some (k, rest2) =>
        (match rest2.dropWhile Char.isWhitespace with
         | ':' :: rest3 =>
           (match parseVal fuel rest3 with
            | some (v, rest4) =>
              (match rest4.dropWhile Char.isWhitespace with
               | ',' :: rest5 =>
                 (match parseFields fuel rest5 with
                  | some (fs, rest6) => some ((k, v) :: fs, rest6)
                  | none => none)
               | '}' :: rest5 => some ([(k, v)], rest5)
               | _ => none)
            | none => none)
         | _ => none)
      | none => none
    | _ => none

end

/-- Model of `JSON.parse(s)`: `none` models a thrown `SyntaxError`.
Trailing non-whitespace input is rejected, as in JS. -/
def parseJSON (s : String) : Option Js :=
  match parseVal (s.length + 1) s.data with
  | some (v, rest) => if rest.dropWhile Char.isWhitespace = [] then some v else none
  | none => none

/-! ## Forecast chart transform (`PriceForecast`, src/frontend/App.jsx 308-313) -/

/-- One point of the forecast series (`ForecastData` in src/frontend/lib/types.ts):
`month: string, price: number, type: "history" | "forecast"`. The `type`
tag is kept as a string, as in the untyped runtime data. Prices carry no
`NaN` in the data handled by the chart, so they are modelled as rationals. -/
structure ForecastPoint where
  month : String
  price : ℚ
  type : String
deriving DecidableEq, Repr

/-- Model of `data.filter(d => d.type === "history")` (App.jsx line 309). -/
def historySeries (data : List ForecastPoint) : List ForecastPoint :=
  data.filter (fun d => d.type == "history")

/-- Model of `data.filter(d => d.type === "forecast")` (App.jsx line 310). -/
def forecastSeries (data : List ForecastPoint) : List ForecastPoint :=
  data.filter (fun d => d.type == "forecast")

/-- The connector series of `PriceForecast` (App.jsx line 313):
`historyData.length > 0 ? [historyData[historyData.length - 1], ...forecastData]
: forecastData`. -/
def connector (data : List ForecastPoint) : List ForecastPoint :=
  let h := historySeries data
  if hh : 0 < h.length then
    h.get ⟨h.length - 1, Nat.sub_lt hh Nat.one_pos⟩ :: forecastSeries data
  else
    forecastSeries data

/-- The `forecastData` array of `mockData` (App.jsx lines 38-51). -/
def mockForecastData : List ForecastPoint :=
  [⟨"Jan", 150, "history"⟩, ⟨"Feb", 155, "history"⟩, ⟨"Mar", 160, "history"⟩,
   ⟨"Apr", 165, "history"⟩, ⟨"May", 170, "history"⟩, ⟨"Jun", 175, "history"⟩,
   ⟨"Jul", 180, "history"⟩, ⟨"Aug", 185, "history"⟩,
   ⟨"Sep", 190, "forecast"⟩, ⟨"Oct", 195, "forecast"⟩,
   ⟨"Nov", 200, "forecast"⟩, ⟨"Dec", 205, "forecast"⟩]

/-! ## The analysis store (`useAnalysisStore`, src/frontend/App.jsx 71-134) -/

/-- The `userInput` record of the store (App.jsx lines 73-79); the shape is
`SearchFormState` of src/frontend/lib/types.ts. `expectedReturn` is a JS
number and can be `NaN` (see `parseIntB10`). -/
structure InputProfile where
  ticker : String
  financialCondition : List String
  expectedReturn : JsNum
  riskTolerance : String
  tradingPreferences : String

/-- The keys of `userInput`, for the computed-property update in `setInput`. -/
inductive FieldKey where
  | ticker
  | financialCondition
  | expectedReturn
  | riskTolerance
  | tradingPreferences
deriving DecidableEq, Repr

/-- The value type each `userInput` key holds. -/
def FieldType : FieldKey → Type
  | .ticker => String
  | .financialCondition => List String
  | .expectedReturn => JsNum
  | .riskTolerance => String
  | .tradingPreferences => String

/-- Model of `setInput(key, value)` (App.jsx lines 91-95): replace the one keyed field
of `userInput` with the given value, verbatim, leaving the rest unchanged
(`{ ...state.userInput, [key]: value }`). -/
def setInput (p : InputProfile) (k : FieldKey) (v : FieldType k) : InputProfile :=
  match k with
  | .ticker => { p with ticker := v }
  | .financialCondition => { p with financialCondition := v }
  | .expectedReturn => { p with expectedReturn := v }
  | .riskTolerance => { p with riskTolerance := v }
  | .tradingPreferences => { p with tradingPreferences := v }

/-- Model of the ticker `onChange` handler (App.jsx line 161):
upper-case the raw value, then store it through `setInput`. -/
def onChangeTicker (p : InputProfile) (raw : String) : InputProfile :=
  setInput p .ticker (jsToUpperCase raw)

/-- Model of the financial-condition `onChange` handler (App.jsx line 209):
split the raw value on commas, trim each segment, then store through
`setInput`. -/
def onChangeFinancialCondition (p : InputProfile) (raw : String) : InputProfile :=
  setInput p .financialCondition ((jsSplit ',' raw).map jsTrim)

/-- Model of the expected-return `onChange` handler (App.jsx line 194):
parse the raw value with `parseInt(raw, 10)`, then store through `setInput`
(a failed parse stores `NaN`). -/
def onChangeExpectedReturn (p : InputProfile) (raw : String) : InputProfile :=
  setInput p .expectedReturn (parseIntB10 raw)

/-- Model of the risk-tolerance `onChange` handler (App.jsx line 176):
the raw value is stored unchanged. -/
def onChangeRiskTolerance (p : InputProfile) (raw : String) : InputProfile :=
  setInput p .riskTolerance raw

/-- Model of the trading-preferences `onChange` handler (App.jsx line 224):
the raw value is stored unchanged. -/
def onChangeTradingPreferences (p : InputProfile) (raw : String) : InputProfile :=
  setInput p .tradingPreferences raw

/-- Model of the expected-return `handleChange` of the `SearchForm` variant
(src/unnamed/part_000): `parseInt(e.target.value, 10) || 0` — a falsy parse
result (`NaN` or `0`) is replaced by `0`. -/
def searchFormOnChangeExpectedReturn (p : InputProfile) (raw : String) : InputProfile :=
  setInput p .expectedReturn
    (if jsNumTruthy (parseIntB10 raw) then parseIntB10 raw else .fin 0)

/-- Model of `API_BASE_URL` (App.jsx line 32): the environment override or the
documented local-development default, taken here at the default. -/
def API_BASE_URL : String := "http://127.0.0.1:8000"

/-- The whole store state (App.jsx lines 71-87): `userInput`, `isLoading`,
`apiError` and `analysisResults`. `analysisResults` holds an arbitrary parsed
JSON value (the code performs no shape validation); `none` models JS `null`,
which the code never assigns to it. -/
structure SessionState where
  userInput : InputProfile
  isLoading : Bool
  apiError : Option String
  analysisResults : Option Js

/-- Encoding of `mockData` (App.jsx lines 35-69) as the JSON value initially
stored in `analysisResults`. -/
def mockJs : Js :=
  .obj
    [("analysis", .str "This is a mock analysis. Fill out the form and click \x27Analyze\x27 to get a live response."),
     ("keyNews", .str "Mock news summary. The backend will provide real data."),
     ("forecastData", .arr
       [.obj [("month", .str "Jan"), ("price", .num (.fin 150)), ("type", .str "history")],
        .obj [("month", .str "Feb"), ("price", .num (.fin 155)), ("type", .str "history")],
        .obj [("month", .str "Mar"), ("price", .num (.fin 160)), ("type", .str "history")],
        .obj [("month", .str "Apr"), ("price", .num (.fin 165)), ("type", .str "history")],
        .obj [("month", .str "May"), ("price", .num (.fin 170)), ("type", .str "history")],
        .obj [("month", .str "Jun"), ("price", .num (.fin 175)), ("type", .str "history")],
        .obj [("month", .str "Jul"), ("price", .num (.fin 180)), ("type", .str "history")],
        .obj [("month", .str "Aug"), ("price", .num (.fin 185)), ("type", .str "history")],
        .obj [("month", .str "Sep"), ("price", .num (.fin 190)), ("type", .str "forecast")],
        .obj [("month", .str "Oct"), ("price", .num (.fin 195)), ("type", .str "forecast")],
        .obj [("month", .str "Nov"), ("price", .num (.fin 200)), ("type", .str "forecast")],
        .obj [("month", .str "Dec"), ("price", .num (.fin 205)), ("type", .str "forecast")]]),
     ("investmentAdvice", .obj
       [("entryPoint", .num (.fin (351 / 2))),
        ("expectedReturn", .num (.fin 18)),
        ("stopLoss", .num (.fin 168))]),
     ("recommendedStocks", .arr
       [.obj [("ticker", .str "MSFT"), ("name", .str "Microsoft"),
              ("reason", .str "Matches your long-term, stable tech preference.")],
        .obj [("ticker", .str "GOOGL"), ("name", .str "Google"),
              ("reason", .str "Aligns with your interest in high-growth tech.")]])]

/-- The initial store state (App.jsx lines 73-86): default `userInput`,
not loading, no error, and `analysisResults` initialized to `mockData`
("Start with mock data"). -/
def initialState : SessionState :=
  { userInput :=
      { ticker := "AAPL"
        financialCondition := ["Stable Income"]
        expectedReturn := .fin 15
        riskTolerance := "Medium"
        tradingPreferences := "I am a long-term holder, I prefer tech and biotech." }
    isLoading := false
    apiError := none
    analysisResults := some mockJs }

/-! ## `fetchAnalysis` (src/frontend/App.jsx 98-133) -/

/-- The error value observed by the `catch` block: its `message`, the
`response.data` of an axios error carrying a server response (`none` when
the error has no `response` property), and whether it carries a `request`
property (an axios error whose request got no response). -/
structure JsError where
  message : String
  responseData : Option Js
  request : Bool

/-- A plain `new Error(msg)` thrown inside the `try` block: it has neither a
`response` nor a `request` property. -/
def plainJsError (msg : String) : JsError :=
  { message := msg, responseData := none, request := false }

/-- Model of the message construction in the `catch` block (App.jsx lines
123-130). The
initial `"Failed to fetch analysis."` default (line 123) is reassigned on
every path of the if/else-if/else chain, so the stored message is:
`Server Error: ${error.response.data.detail || error.message}` when the error
carries a response; the connectivity message naming `API_BASE_URL` when it
carries only a request; the own message of the error otherwise. -/
def buildErrorMessage (e : JsError) : String :=
  match e.responseData with
  | some data => "Server Error: " ++ jsOrStr (getProp data "detail") e.message
  | none =>
    if e.request then
      "Connection Error: Is the Python server running at " ++ API_BASE_URL ++ "?"
    else
      e.message

/-- The message of the `SyntaxError` thrown by a failing `JSON.parse`
(exact JS engine wording not modelled; no theorem inspects it). -/
def jsonParseErrorMessage : String := "Unexpected token in JSON"

/-- The message of the `TypeError` thrown by `aiResponseJsonString.startsWith`
when the `analysis` field is a truthy non-string. -/
def startsWithTypeErrorMessage : String :=
  "aiResponseJsonString.startsWith is not a function"

/-- The body of the `try` block after a resolved `axios.post` (App.jsx lines
105-114), on the already-parsed response body `data`:
`if (response.data.error) throw new Error(response.data.error);` then
`if (!s || s.startsWith("Error:")) throw new Error(s || "Empty response from AI");`
then `JSON.parse(s)`. Returns the parsed payload or the thrown error. -/
def tryBody (data : Js) : Except JsError Js :=
  if jsTruthyOpt (getProp data "error") then
    Except.error (plainJsError (jsToString ((getProp data "error").getD Js.null)))
  else if ¬ jsTruthyOpt (getProp data "analysis") then
    Except.error (plainJsError "Empty response from AI")
  else
    match getProp data "analysis" with
    | some (Js.str s) =>
      if s.startsWith "Error:" then Except.error (plainJsError s)
      else
        match parseJSON s with
        | some v => Except.ok v
        | none => Except.error (plainJsError jsonParseErrorMessage)
    | _ => Except.error (plainJsError startsWithTypeErrorMessage)

/-- The possible outcomes of `await axios.post(...)`: a 2xx resolution with
the parsed body; a rejection carrying a server response (non-2xx) with its
parsed body and error message; a rejection whose request got no response;
or a rejection with neither (request setup failure). -/
inductive AxiosOutcome where
  | ok (data : Js)
  | httpErr (data : Js) (message : String)
  | noResponse (message : String)
  | setupErr (message : String)

/-- The resolution half of `fetchAnalysis` (App.jsx lines 103-132): run the
`try` body on a resolved response, or enter the `catch` with the rejection
error. Success stores the parsed payload and clears `isLoading` — it does not
touch `apiError`; failure stores the constructed message in `apiError` and
clears `isLoading` — it does not touch `analysisResults` or `userInput`. -/
def resolveStep (s : SessionState) (o : AxiosOutcome) : SessionState :=
  match o with
  | .ok data =>
    match tryBody data with
    | .ok aiData => { s with analysisResults := some aiData, isLoading := false }
    | .error e => { s with isLoading := false, apiError := some (buildErrorMessage e) }
  | .httpErr data msg =>
    { s with isLoading := false,
             apiError := some (buildErrorMessage ⟨msg, some data, false⟩) }
  | .noResponse msg =>
    { s with isLoading := false,
             apiError := some (buildErrorMessage ⟨msg, none, true⟩) }
  | .setupErr msg =>
    { s with isLoading := false,
             apiError := some (buildErrorMessage ⟨msg, none, false⟩) }

/-- The synchronous start of `fetchAnalysis` (App.jsx line 100):
`set({ isLoading: true, apiError: null })`. -/
def submitStart (s : SessionState) : SessionState :=
  { s with isLoading := true, apiError := none }

/-- One whole `fetchAnalysis` call with its transport outcome: start, then
resolve. -/
def fetchAnalysis (s : SessionState) (o : AxiosOutcome) : SessionState :=
  resolveStep (submitStart s) o

/-- The store events relevant to the session state machine: the synchronous
start of a `fetchAnalysis` call, and the (possibly much later) resolution of
one such call. The single-threaded event loop applies each atomically. -/
inductive Event where
  | submit
  | resolve (o : AxiosOutcome)

/-- Apply one event to the store state. -/
def step (s : SessionState) : Event → SessionState
  | .submit => submitStart s
  | .resolve o => resolveStep s o

/-- Run a sequence of events from a state. -/
def run (s : SessionState) (events : List Event) : SessionState :=
  events.foldl step s

/-- The derived session status the presentation layer branches on
(`DashboardDisplay`, App.jsx lines 258-280): loading while `isLoading`,
error while `apiError` is set, otherwise the results view. The code has no
distinct idle status: the initial state renders the results view. -/
inductive Status where
  | loading
  | error
  | success
deriving DecidableEq, Repr

/-- Status of a store state. -/
def statusOf (s : SessionState) : Status :=
  if s.isLoading then .loading
  else if s.apiError.isSome then .error
  else .success

/-! ## Spec-side characterizations -/

/-- The payload a resolved 2xx body yields per the specified success
conditions: no truthy top-level `error` field, an `analysis` field that is a
non-empty string not starting with `"Error:"`, and an inner `JSON.parse` that
succeeds. Written from the success conditions of the spec (§6), to be
compared with `tryBody`. -/
def goodPayloadData (data : Js) : Option Js :=
  if jsTruthyOpt (getProp data "error") then none
  else
    match getProp data "analysis" with
    | some (Js.str s) =>
      if s = "" then none
      else if s.startsWith "Error:" then none
      else parseJSON s
    | _ => none

/-- The payload an outcome yields on the success path, `none` when the call
fails: only a 2xx resolution with a good body succeeds. -/
def goodPayload (o : AxiosOutcome) : Option Js :=
  match o with
  | .ok data => goodPayloadData data
  | _ => none

/-- The error message a failing outcome stores, `none` when the call
succeeds. -/
def resolvedError (o : AxiosOutcome) : Option String :=
  match o with
  | .ok data =>
    match tryBody data with
    | .ok _ => none
    | .error e => some (buildErrorMessage e)
  | .httpErr data msg => some (buildErrorMessage ⟨msg, some data, false⟩)
  | .noResponse msg => some (buildErrorMessage ⟨msg, none, true⟩)
  | .setupErr msg => some (buildErrorMessage ⟨msg, none, false⟩)

/-- Structural validity of a `ForecastData` element per
src/frontend/lib/types.ts: `month: string`, `price: number`,
`type: "history" | "forecast"`. -/
def isValidForecastPoint (v : Js) : Bool :=
  (match getProp v "month" with | some (Js.str _) => true | _ => false) &&
  (match getProp v "price" with | some (Js.num _) => true | _ => false) &&
  (match getProp v "type" with
   | some (Js.str t) => t == "history" || t == "forecast"
   | _ => false)

/-- Structural validity of `InvestmentAdviceData` per
src/frontend/lib/types.ts. -/
def isValidInvestmentAdvice (v : Js) : Bool :=
  (match getProp v "entryPoint" with | some (Js.num _) => true | _ => false) &&
  (match getProp v "expectedReturn" with | some (Js.num _) => true | _ => false) &&
  (match getProp v "stopLoss" with | some (Js.num _) => true | _ => false)

/-- Structural validity of `RecommendedStockData` per
src/frontend/lib/types.ts (`name` optional). -/
def isValidRecommendedStock (v : Js) : Bool :=
  (match getProp v "ticker" with | some (Js.str _) => true | _ => false) &&
  (match getProp v "reason" with | some (Js.str _) => true | _ => false) &&
  (match getProp v "name" with | some (Js.str _) => true | none => true | _ => false)

/-- Structural validity of a whole `AnalysisResult` per
src/frontend/lib/types.ts. -/
def isValidAnalysisResult (v : Js) : Bool :=
  (match getProp v "analysis" with | some (Js.str _) => true | _ => false) &&
  (match getProp v "keyNews" with | some (Js.str _) => true | _ => false) &&
  (match getProp v "forecastData" with
   | some (Js.arr es) => es.all isValidForecastPoint
   | _ => false) &&
  (match getProp v "investmentAdvice" with
   | some advice => isValidInvestmentAdvice advice
   | none => false) &&
  (match getProp v "recommendedStocks" with
   | some (Js.arr es) => es.all isValidRecommendedStock
   | _ => false)

/-! ## Helper lemmas -/

theorem tryBody_ok_iff (data v : Js) :
    tryBody data = Except.ok v ↔ goodPayloadData data = some v := by
  unfold tryBody goodPayloadData
  cases he : jsTruthyOpt (getProp data "error") with
  | true => simp [he]
  | false =>
    simp only [he, Bool.false_eq_true, if_false]
    rcases ha : getProp data "analysis" with _ | a
    · simp [jsTruthyOpt]
    · rcases a with _ | b | n | s | es | fs
      · simp [jsTruthyOpt, jsTruthy]
      · cases b <;> simp [jsTruthyOpt, jsTruthy]
      · cases hn : jsNumTruthy n <;> simp [jsTruthyOpt, jsTruthy, hn]
      · by_cases hs : s = ""
        · subst hs; simp [jsTruthyOpt, jsTruthy]
        · have ht : jsTruthyOpt (some (Js.str s)) = true := by
            simp [jsTruthyOpt, jsTruthy, hs]
          simp only [ht, not_true, if_false, hs, if_neg hs]
          by_cases hsw : s.startsWith "Error:"
          · simp [hsw]
          · simp only [hsw, Bool.false_eq_true, if_false]
            cases hp : parseJSON s <;> simp [hp]
      · simp [jsTruthyOpt, jsTruthy]
      · simp [jsTruthyOpt, jsTruthy]

theorem goodPayloadData_eq_none_of_tryBody_error (data : Js) (e : JsError)
    (h : tryBody data = Except.error e) : goodPayloadData data = none := by
  cases hg : goodPayloadData data with
  | none => rfl
  | some v =>
    have := (tryBody_ok_iff data v).mpr hg
    rw [h] at this
    exact Except.noConfusion this

theorem resolveStep_isLoading (s : SessionState) (o : AxiosOutcome) :
    (resolveStep s o).isLoading = false := by
  cases o with
  | ok data => cases h : tryBody data <;> simp [resolveStep, h]
  | httpErr d m => rfl
  | noResponse m => rfl
  | setupErr m => rfl

theorem resolveStep_userInput (s : SessionState) (o : AxiosOutcome) :
    (resolveStep s o).userInput = s.userInput := by
  cases o with
  | ok data => cases h : tryBody data <;> simp [resolveStep, h]
  | httpErr d m => rfl
  | noResponse m => rfl
  | setupErr m => rfl

theorem resolveStep_results (s : SessionState) (o : AxiosOutcome) :
    (resolveStep s o).analysisResults =
      match goodPayload o with
      | some v => some v
      | none => s.analysisResults := by
  cases o with
  | ok data =>
    cases h : tryBody data with
    | ok a =>
      simp [resolveStep, h, goodPayload, (tryBody_ok_iff data a).mp h]
    | error e =>
      simp [resolveStep, h, goodPayload,
            goodPayloadData_eq_none_of_tryBody_error data e h]
  | httpErr d m => simp [resolveStep, goodPayload]
  | noResponse m => simp [resolveStep, goodPayload]
  | setupErr m => simp [resolveStep, goodPayload]

theorem resolveStep_apiError (s : SessionState) (o : AxiosOutcome) :
    (resolveStep s o).apiError =
      match resolvedError o with
      | some m => some m
      | none => s.apiError := by
  cases o with
  | ok data => cases h : tryBody data <;> simp [resolveStep, h, resolvedError]
  | httpErr d m => simp [resolveStep, resolvedError]
  | noResponse m => simp [resolveStep, resolvedError]
  | setupErr m => simp [resolveStep, resolvedError]

theorem resolvedError_eq_none_of_goodPayload (o : AxiosOutcome) (v : Js)
    (h : goodPayload o = some v) : resolvedError o = none := by
  cases o with
  | ok data =>
    have hb : tryBody data = Except.ok v :=
      (tryBody_ok_iff data v).mpr (by simpa [goodPayload] using h)
    simp [resolvedError, hb]
  | httpErr d m => simp [goodPayload] at h
  | noResponse m => simp [goodPayload] at h
  | setupErr m => simp [goodPayload] at h

theorem goodPayload_eq_none_of_resolvedError (o : AxiosOutcome) (m : String)
    (h : resolvedError o = some m) : goodPayload o = none := by
  cases hg : goodPayload o with
  | none => rfl
  | some v =>
    rw [resolvedError_eq_none_of_goodPayload o v hg] at h
    exact Option.noConfusion h

theorem resolvedError_isSome_of_goodPayload_none (o : AxiosOutcome)
    (h : goodPayload o = none) : (resolvedError o).isSome = true := by
  cases o with
  | ok data =>
    cases hb : tryBody data with
    | ok a =>
      have := (tryBody_ok_iff data a).mp hb
      simp [goodPayload, this] at h
    | error e => simp [resolvedError, hb]
  | httpErr d m => simp [resolvedError]
  | noResponse m => simp [resolvedError]
  | setupErr m => simp [resolvedError]

theorem fetchAnalysis_apiError (s : SessionState) (o : AxiosOutcome) :
    (fetchAnalysis s o).apiError = resolvedError o := by
  rw [fetchAnalysis, resolveStep_apiError]
  cases resolvedError o <;> rfl

theorem fetchAnalysis_results (s : SessionState) (o : AxiosOutcome) :
    (fetchAnalysis s o).analysisResults =
      match goodPayload o with
      | some v => some v
      | none => s.analysisResults := by
  rw [fetchAnalysis, resolveStep_results]
  cases goodPayload o <;> rfl

theorem fetchAnalysis_isLoading (s : SessionState) (o : AxiosOutcome) :
    (fetchAnalysis s o).isLoading = false :=
  resolveStep_isLoading _ _

theorem fetchAnalysis_userInput (s : SessionState) (o : AxiosOutcome) :
    (fetchAnalysis s o).userInput = s.userInput :=
  resolveStep_userInput _ _

/-! ## Claim theorems -/

/-- C1: for every ForecastPoint sequence, the forecast transform produces
`connector = [last element of historySeries] ++ forecastSeries` when
`historySeries` is non-empty and `connector = forecastSeries` when it is
empty; on the mock input with history Jan..Aug (150..185) and forecast
Sep..Dec (190..205), `connector` is exactly
`[{Aug,185}, {Sep,190}, {Oct,195}, {Nov,200}, {Dec,205}]`. -/
theorem connector_spec :
    (∀ (data : List ForecastPoint) (h : historySeries data ≠ []),
       connector data = (historySeries data).getLast h :: forecastSeries data) ∧
    (∀ data : List ForecastPoint,
       historySeries data = [] → connector data = forecastSeries data) ∧
    connector mockForecastData =
      [⟨"Aug", 185, "history"⟩, ⟨"Sep", 190, "forecast"⟩, ⟨"Oct", 195, "forecast"⟩,
       ⟨"Nov", 200, "forecast"⟩, ⟨"Dec", 205, "forecast"⟩] := by
  refine ⟨?_, ?_, ?_⟩
  · intro data h
    have hl : 0 < (historySeries data).length := List.length_pos.mpr h
    unfold connector
    rw [dif_pos hl]
    congr 1
    rw [List.get_eq_getElem, List.getLast_eq_getElem]
  · intro data h
    unfold connector
    rw [dif_neg]
    rw [h]
    simp
  · rfl

/-- Witness for C1: the general formula applied at the mock input. -/
theorem connector_spec_witness :
    connector mockForecastData =
      (historySeries mockForecastData).getLast (by decide)
        :: forecastSeries mockForecastData :=
  connector_spec.1 mockForecastData (by decide)

/-- C3: storing a field and reading it back yields the transformed raw value
(upper-cased for ticker; comma-split and trimmed for financialCondition; the
given value unchanged for every other field, number parsing being done
upstream of `setInput`), and every other field of the profile is unchanged. -/
theorem setField_roundtrip :
    (∀ (p : InputProfile) (raw : String),
       (onChangeTicker p raw).ticker = jsToUpperCase raw ∧
       (onChangeTicker p raw).financialCondition = p.financialCondition ∧
       (onChangeTicker p raw).expectedReturn = p.expectedReturn ∧
       (onChangeTicker p raw).riskTolerance = p.riskTolerance ∧
       (onChangeTicker p raw).tradingPreferences = p.tradingPreferences) ∧
    (∀ (p : InputProfile) (raw : String),
       (onChangeFinancialCondition p raw).financialCondition =
         (jsSplit ',' raw).map jsTrim ∧
       (onChangeFinancialCondition p raw).ticker = p.ticker ∧
       (onChangeFinancialCondition p raw).expectedReturn = p.expectedReturn ∧
       (onChangeFinancialCondition p raw).riskTolerance = p.riskTolerance ∧
       (onChangeFinancialCondition p raw).tradingPreferences = p.tradingPreferences) ∧
    (∀ (p : InputProfile) (v : JsNum),
       (setInput p .expectedReturn v).expectedReturn = v ∧
       (setInput p .expectedReturn v).ticker = p.ticker ∧
       (setInput p .expectedReturn v).financialCondition = p.financialCondition ∧
       (setInput p .expectedReturn v).riskTolerance = p.riskTolerance ∧
       (setInput p .expectedReturn v).tradingPreferences = p.tradingPreferences) ∧
    (∀ (p : InputProfile) (raw : String),
       (onChangeRiskTolerance p raw).riskTolerance = raw ∧
       (onChangeRiskTolerance p raw).ticker = p.ticker ∧
       (onChangeRiskTolerance p raw).financialCondition = p.financialCondition ∧
       (onChangeRiskTolerance p raw).expectedReturn = p.expectedReturn ∧
       (onChangeRiskTolerance p raw).tradingPreferences = p.tradingPreferences) ∧
    (∀ (p : InputProfile) (raw : String),
       (onChangeTradingPreferences p raw).tradingPreferences = raw ∧
       (onChangeTradingPreferences p raw).ticker = p.ticker ∧
       (onChangeTradingPreferences p raw).financialCondition = p.financialCondition ∧
       (onChangeTradingPreferences p raw).expectedReturn = p.expectedReturn ∧
       (onChangeTradingPreferences p raw).riskTolerance = p.riskTolerance) :=
  ⟨fun _ _ => ⟨rfl, rfl, rfl, rfl, rfl⟩,
   fun _ _ => ⟨rfl, rfl, rfl, rfl, rfl⟩,
   fun _ _ => ⟨rfl, rfl, rfl, rfl, rfl⟩,
   fun _ _ => ⟨rfl, rfl, rfl, rfl, rfl⟩,
   fun _ _ => ⟨rfl, rfl, rfl, rfl, rfl⟩⟩

/-- C7: on a sequence that is a contiguous run of history points followed by
a contiguous run of forecast points, `historySeries ++ forecastSeries`
reconstructs the input. -/
theorem series_reconstruction (hd fd : List ForecastPoint)
    (hh : ∀ p ∈ hd, p.type = "history") (hf : ∀ p ∈ fd, p.type = "forecast") :
    historySeries (hd ++ fd) ++ forecastSeries (hd ++ fd) = hd ++ fd := by
  unfold historySeries forecastSeries
  rw [List.filter_append, List.filter_append]
  have h1 : hd.filter (fun d => d.type == "history") = hd :=
    List.filter_eq_self.mpr (fun a ha => by simp [hh a ha])
  have h2 : fd.filter (fun d => d.type == "history") = [] :=
    List.filter_eq_nil_iff.mpr (fun a ha => by simp [hf a ha])
  have h3 : hd.filter (fun d => d.type == "forecast") = [] :=
    List.filter_eq_nil_iff.mpr (fun a ha => by simp [hh a ha])
  have h4 : fd.filter (fun d => d.type == "forecast") = fd :=
    List.filter_eq_self.mpr (fun a ha => by simp [hf a ha])
  rw [h1, h2, h3, h4, List.append_nil, List.nil_append]

/-- Witness for C7: the reconstruction at a concrete two-point sequence. -/
theorem series_reconstruction_witness :
    historySeries ([⟨"Jan", 150, "history"⟩] ++ [⟨"Feb", 160, "forecast"⟩]) ++
      forecastSeries ([⟨"Jan", 150, "history"⟩] ++ [⟨"Feb", 160, "forecast"⟩]) =
      [⟨"Jan", 150, "history"⟩] ++ [⟨"Feb", 160, "forecast"⟩] :=
  series_reconstruction _ _ (by decide) (by decide)

/-- The split of a list is never empty. -/
theorem jsSplitChar_ne_nil (sep : Char) (l : List Char) :
    jsSplitChar sep l ≠ [] := by
  induction l with
  | nil => simp [jsSplitChar]
  | cons c cs ih =>
    rw [jsSplitChar]
    split
    · simp
    · split
      · simp
      · simp

/-- Splitting a separator-free list yields that list as the only group. -/
theorem jsSplitChar_of_not_mem (sep : Char) (l : List Char) (h : sep ∉ l) :
    jsSplitChar sep l = [l] := by
  induction l with
  | nil => rfl
  | cons c cs ih =>
    rw [jsSplitChar,
        if_neg (by rintro rfl; exact h (List.mem_cons_self _ _)),
        ih (fun hm => h (List.mem_cons_of_mem _ hm))]

/-- Splitting a separator-free chunk followed by the separator peels off the
chunk as the first group. -/
theorem jsSplitChar_append (sep : Char) (x r : List Char) (h : sep ∉ x) :
    jsSplitChar sep (x ++ sep :: r) = x :: jsSplitChar sep r := by
  induction x with
  | nil => rw [List.nil_append, jsSplitChar, if_pos rfl]
  | cons c cs ih =>
    rw [List.cons_append, jsSplitChar,
        if_neg (by rintro rfl; exact h (List.mem_cons_self _ _)),
        ih (fun hm => h (List.mem_cons_of_mem _ hm))]

/-- Trimming ignores a leading space. -/
theorem jsTrimChar_cons_space (g : List Char) :
    jsTrimChar (' ' :: g) = jsTrimChar g := by
  unfold jsTrimChar
  rw [List.dropWhile_cons, if_pos (by decide)]

/-- Character-level round trip: joining comma-free, trim-invariant chunks
with a comma-space separator, splitting on the comma and trimming each group
restores the chunks. -/
theorem splitJoinTrimChar (l : List (List Char)) (hne : l ≠ [])
    (h : ∀ x ∈ l, (',' ∉ x) ∧ jsTrimChar x = x) :
    (jsSplitChar ',' (jsJoinChar [',', ' '] l)).map jsTrimChar = l := by
  induction l with
  | nil => exact absurd rfl hne
  | cons x xs ih =>
    have hx := h x (List.mem_cons_self _ _)
    cases xs with
    | nil =>
      rw [jsJoinChar, jsSplitChar_of_not_mem _ _ hx.1, List.map_cons,
          List.map_nil, hx.2]
    | cons y ys =>
      have hrest : ∀ z ∈ y :: ys, (',' ∉ z) ∧ jsTrimChar z = z :=
        fun z hz => h z (List.mem_cons_of_mem _ hz)
      have hjoin : jsJoinChar [',', ' '] (x :: y :: ys) =
          x ++ ',' :: (' ' :: jsJoinChar [',', ' '] (y :: ys)) := by
        rw [jsJoinChar]
        simp
      rw [hjoin, jsSplitChar_append _ _ _ hx.1]
      cases hw : jsSplitChar ',' (jsJoinChar [',', ' '] (y :: ys)) with
      | nil => exact absurd hw (jsSplitChar_ne_nil _ _)
      | cons g gs =>
        have hs : jsSplitChar ',' (' ' :: jsJoinChar [',', ' '] (y :: ys)) =
            (' ' :: g) :: gs := by
          rw [jsSplitChar, if_neg (by decide), hw]
        rw [hs, List.map_cons, List.map_cons, hx.2, jsTrimChar_cons_space]
        have htail := ih (by simp) hrest
        rw [hw, List.map_cons] at htail
        rw [htail]

/-- The financial-condition display/edit round trip (App.jsx lines 208-209):
the stored array is rendered with `join(", ")` and an edit is re-parsed with
`split(",").map(s => s.trim())`. -/
def financialConditionRoundTrip (l : List String) : List String :=
  (jsSplit ',' (jsJoin ", " l)).map jsTrim

/-- C10: the financial-condition display/edit round trip is the identity on
every non-empty array of comma-free strings with no leading or trailing
whitespace, and maps the empty array to the one-element array holding the
empty string. -/
theorem financialConditionRoundTrip_spec :
    (∀ l : List String, l ≠ [] →
       (∀ x ∈ l, (',' ∉ x.data) ∧ jsTrim x = x) →
       financialConditionRoundTrip l = l) ∧
    financialConditionRoundTrip [] = [""] := by
  constructor
  · intro l hne h
    have hmk : ∀ s : String, String.mk s.data = s := fun s => rfl
    have hchar : ∀ x ∈ l.map String.data, (',' ∉ x) ∧ jsTrimChar x = x := by
      intro x hx
      rcases List.mem_map.mp hx with ⟨s, hs, rfl⟩
      refine ⟨(h s hs).1, ?_⟩
      have := congrArg String.data (h s hs).2
      simpa [jsTrim] using this
    have hkey := splitJoinTrimChar (l.map String.data)
      (by simpa using hne) hchar
    unfold financialConditionRoundTrip jsSplit jsJoin
    have hdata : (String.mk (jsJoinChar ", ".data (l.map String.data))).data =
        jsJoinChar [',', ' '] (l.map String.data) := rfl
    have hfun : (jsTrim ∘ String.mk) = (String.mk ∘ jsTrimChar) := by
      funext a
      rfl
    have hid : (String.mk ∘ String.data) = id := by
      funext s
      rfl
    rw [hdata, List.map_map, hfun, ← List.map_map, hkey, List.map_map, hid,
        List.map_id]
  · rfl

/-- Witness for C10: the round trip applied at a concrete two-element array. -/
theorem financialConditionRoundTrip_spec_witness :
    financialConditionRoundTrip ["Stable Income", "High Debt"] =
      ["Stable Income", "High Debt"] :=
  financialConditionRoundTrip_spec.1 _ (by decide) (by decide)

/-- Every error thrown inside the `try` block is a plain `Error` (no
`response` or `request` property), so the `catch` stores its own message. -/
theorem tryBody_error_message (data : Js) (e : JsError)
    (h : tryBody data = Except.error e) :
    buildErrorMessage e = e.message := by
  have hplain : ∃ m, e = plainJsError m := by
    unfold tryBody at h
    split at h
    · exact ⟨_, ((Except.error.injEq _ _).mp h).symm⟩
    · split at h
      · exact ⟨_, ((Except.error.injEq _ _).mp h).symm⟩
      · split at h
        · split at h
          · exact ⟨_, ((Except.error.injEq _ _).mp h).symm⟩
          · split at h
            · simp at h
            · exact ⟨_, ((Except.error.injEq _ _).mp h).symm⟩
        · exact ⟨_, ((Except.error.injEq _ _).mp h).symm⟩
  obtain ⟨m, rfl⟩ := hplain
  rfl

/-- C2 counterexample: the 2xx body `{analysis: "42"}` has a payload that
parses as JSON but is not a valid `AnalysisResult` shape, yet `fetchAnalysis`
ends in the Success state storing it — the shape is never validated, contrary
to the claim that such a submit ends in the Error state. -/
theorem fetchAnalysis_shape_counterexample :
    statusOf (fetchAnalysis initialState
        (AxiosOutcome.ok (Js.obj [("analysis", Js.str "42")]))) = Status.success ∧
    (fetchAnalysis initialState
        (AxiosOutcome.ok (Js.obj [("analysis", Js.str "42")]))).analysisResults =
      some (Js.num (JsNum.fin 42)) ∧
    isValidAnalysisResult (Js.num (JsNum.fin 42)) = false :=
  ⟨rfl, rfl, rfl⟩

/-- C2 (amended): `fetchAnalysis` ends in the Success state, storing the
parsed payload, exactly when the transport resolves with a 2xx body that has
no truthy top-level `error` field and whose `analysis` field is a non-empty
string that does not start with `"Error:"` and parses as JSON — into any
JSON value, the `AnalysisResult` shape being left unvalidated; in every other
case it ends in the Error state with the constructed message. -/
theorem fetchAnalysis_outcome_spec (s : SessionState) (o : AxiosOutcome) :
    (match goodPayload o with
     | some v =>
       statusOf (fetchAnalysis s o) = Status.success ∧
       (fetchAnalysis s o).analysisResults = some v ∧
       (fetchAnalysis s o).apiError = none
     | none =>
       statusOf (fetchAnalysis s o) = Status.error ∧
       (fetchAnalysis s o).apiError = resolvedError o ∧
       (resolvedError o).isSome = true) := by
  cases hg : goodPayload o with
  | some v =>
    have herr : (fetchAnalysis s o).apiError = none := by
      rw [fetchAnalysis_apiError, resolvedError_eq_none_of_goodPayload o v hg]
    refine ⟨?_, ?_, herr⟩
    · simp [statusOf, fetchAnalysis_isLoading, herr]
    · rw [fetchAnalysis_results, hg]
  | none =>
    have hsome := resolvedError_isSome_of_goodPayload_none o hg
    have herr : (fetchAnalysis s o).apiError = resolvedError o :=
      fetchAnalysis_apiError s o
    refine ⟨?_, herr, hsome⟩
    simp [statusOf, fetchAnalysis_isLoading, herr, hsome]

/-- C4 counterexample: after one failed submission the session is in the
Error state (not Success) while `analysisResults` still holds the initial
mock data — it is not null, contrary to the claim that `result` is null in
every non-Success state. -/
theorem result_nonnull_counterexample :
    statusOf (run initialState
        [Event.submit, Event.resolve (AxiosOutcome.setupErr "boom")]) =
      Status.error ∧
    (run initialState
        [Event.submit, Event.resolve (AxiosOutcome.setupErr "boom")]).analysisResults ≠
      none :=
  ⟨rfl, fun h => Option.noConfusion h⟩

/-- C4 (amended): `analysisResults` is never null — it starts as the mock
data, every transition either leaves it unchanged or is a successful submit
resolution that replaces it with that resolution's parsed payload. -/
theorem analysisResults_provenance :
    (∀ (s : SessionState) (e : Event),
       (step s e).analysisResults = s.analysisResults ∨
       ∃ (o : AxiosOutcome) (v : Js),
         e = Event.resolve o ∧ goodPayload o = some v ∧
         (step s e).analysisResults = some v) ∧
    (∀ events : List Event, (run initialState events).analysisResults ≠ none) := by
  have hstep : ∀ (s : SessionState) (e : Event),
      (step s e).analysisResults = s.analysisResults ∨
      ∃ (o : AxiosOutcome) (v : Js),
        e = Event.resolve o ∧ goodPayload o = some v ∧
        (step s e).analysisResults = some v := by
    intro s e
    cases e with
    | submit => exact Or.inl rfl
    | resolve o =>
      cases hg : goodPayload o with
      | none =>
        left
        show (resolveStep s o).analysisResults = s.analysisResults
        rw [resolveStep_results, hg]
      | some v =>
        right
        refine ⟨o, v, rfl, hg, ?_⟩
        show (resolveStep s o).analysisResults = some v
        rw [resolveStep_results, hg]
  refine ⟨hstep, ?_⟩
  intro events
  suffices hgen : ∀ s : SessionState, s.analysisResults ≠ none →
      (run s events).analysisResults ≠ none from
    hgen initialState (fun h => Option.noConfusion h)
  induction events with
  | nil => intro s hs; exact hs
  | cons e es ih =>
    intro s hs
    show (run (step s e) es).analysisResults ≠ none
    apply ih
    rcases hstep s e with heq | ⟨o, v, _, _, heq⟩
    · rw [heq]; exact hs
    · rw [heq]; exact fun h => Option.noConfusion h

/-- C5 counterexample: on the 2xx body `{error: "quota exceeded"}` neither a
server-side error response nor a missing response is reported by the
transport, yet the stored message is the thrown error's message
`"quota exceeded"`, not the generic failure message — the generic default
`"Failed to fetch analysis."` is always overwritten. -/
theorem errorMessage_counterexample :
    (fetchAnalysis initialState
        (AxiosOutcome.ok (Js.obj [("error", Js.str "quota exceeded")]))).apiError =
      some "quota exceeded" ∧
    "quota exceeded" ≠ "Failed to fetch analysis." :=
  ⟨rfl, by decide⟩

/-- C5 (amended): the stored error message follows the priority order —
with a server response it is `Server Error: ` followed by the structured
detail when truthy, else the transport error's message; with a request but
no response it is the connectivity message naming `API_BASE_URL`; otherwise
it is the thrown error's own message (never the unused generic default). -/
theorem errorMessage_priority :
    (∀ (s : SessionState) (d : Js) (m : String),
       (fetchAnalysis s (AxiosOutcome.httpErr d m)).apiError =
         some ("Server Error: " ++ jsOrStr (getProp d "detail") m)) ∧
    (∀ (s : SessionState) (m : String),
       (fetchAnalysis s (AxiosOutcome.noResponse m)).apiError =
         some ("Connection Error: Is the Python server running at " ++
               API_BASE_URL ++ "?")) ∧
    (∀ (s : SessionState) (m : String),
       (fetchAnalysis s (AxiosOutcome.setupErr m)).apiError = some m) ∧
    (∀ (s : SessionState) (data : Js) (e : JsError),
       tryBody data = Except.error e →
       (fetchAnalysis s (AxiosOutcome.ok data)).apiError = some e.message) := by
  refine ⟨fun s d m => rfl, fun s m => rfl, fun s m => rfl, ?_⟩
  intro s data e h
  show (resolveStep (submitStart s) (AxiosOutcome.ok data)).apiError = some e.message
  simp [resolveStep, h, tryBody_error_message data e h]

/-- Witness for C5 (amended): a thrown in-try error surfaces its own message. -/
theorem errorMessage_priority_witness :
    (fetchAnalysis initialState
        (AxiosOutcome.ok (Js.obj [("error", Js.bool true)]))).apiError =
      some "true" :=
  errorMessage_priority.2.2.2 initialState (Js.obj [("error", Js.bool true)])
    (plainJsError "true") rfl

/-- C6 counterexample: on the non-numeric raw input `"abc"` the parse fails,
and the handler stores `NaN` — the update is applied, not ignored, and the
previous value 15 is not retained. -/
theorem expectedReturn_parse_counterexample :
    (onChangeExpectedReturn initialState.userInput "abc").expectedReturn =
      JsNum.nan ∧
    initialState.userInput.expectedReturn = JsNum.fin 15 ∧
    JsNum.nan ≠ JsNum.fin 15 :=
  ⟨rfl, rfl, fun h => JsNum.noConfusion h⟩

/-- C6 (amended): a successful parse is stored as-is with no range clamping;
a failed parse stores `NaN` in the App.jsx handler (replacing the previous
value) and `0` in the SearchForm variant. -/
theorem expectedReturn_parse_spec :
    (∀ (p : InputProfile) (raw : String) (q : ℚ),
       parseIntB10 raw = JsNum.fin q →
       (onChangeExpectedReturn p raw).expectedReturn = JsNum.fin q) ∧
    (∀ (p : InputProfile) (raw : String),
       parseIntB10 raw = JsNum.nan →
       (onChangeExpectedReturn p raw).expectedReturn = JsNum.nan) ∧
    (∀ (p : InputProfile) (raw : String),
       parseIntB10 raw = JsNum.nan →
       (searchFormOnChangeExpectedReturn p raw).expectedReturn = JsNum.fin 0) := by
  refine ⟨?_, ?_, ?_⟩
  · intro p raw q h
    simp [onChangeExpectedReturn, setInput, h]
  · intro p raw h
    simp [onChangeExpectedReturn, setInput, h]
  · intro p raw h
    simp [searchFormOnChangeExpectedReturn, setInput, h, jsNumTruthy]

/-- Witness for C6 (amended): a large parsed value is stored unclamped. -/
theorem expectedReturn_parse_spec_witness :
    (onChangeExpectedReturn initialState.userInput "2000").expectedReturn =
      JsNum.fin 2000 :=
  expectedReturn_parse_spec.1 initialState.userInput "2000" 2000 rfl

/-- C8: a `fetchAnalysis` call that resolves in the Error state leaves the
stored result and the input profile exactly as they were before the call. -/
theorem fetchAnalysis_error_frame (s : SessionState) (o : AxiosOutcome)
    (h : statusOf (fetchAnalysis s o) = Status.error) :
    (fetchAnalysis s o).analysisResults = s.analysisResults ∧
    (fetchAnalysis s o).userInput = s.userInput := by
  refine ⟨?_, fetchAnalysis_userInput s o⟩
  rw [fetchAnalysis_results]
  cases hg : goodPayload o with
  | none => rfl
  | some v =>
    exfalso
    have herr : (fetchAnalysis s o).apiError = none := by
      rw [fetchAnalysis_apiError, resolvedError_eq_none_of_goodPayload o v hg]
    rw [statusOf, fetchAnalysis_isLoading, herr] at h
    simp at h

/-- Witness for C8: the frame condition at a concrete failing call. -/
theorem fetchAnalysis_error_frame_witness :
    (fetchAnalysis initialState
        (AxiosOutcome.noResponse "Network Error")).analysisResults =
      initialState.analysisResults ∧
    (fetchAnalysis initialState
        (AxiosOutcome.noResponse "Network Error")).userInput =
      initialState.userInput :=
  fetchAnalysis_error_frame initialState (AxiosOutcome.noResponse "Network Error") rfl

/-- The trace of C9's counterexample: two overlapping submissions whose first
resolution fails and whose second (last) resolution succeeds. -/
def staleOverwriteTrace : List Event :=
  [Event.submit, Event.submit,
   Event.resolve (AxiosOutcome.noResponse "Network Error"),
   Event.resolve (AxiosOutcome.ok (Js.obj [("analysis", Js.str "7")]))]

/-- C9 counterexample: when the last-applied resolution succeeds after an
earlier failed one, the final state is an Error-status state that still
carries the earlier failure's message — it does not equal the state the last
resolution produces on its own, whose `apiError` is null. The success path
never clears `apiError`, so last-write-wins fails for the status. -/
theorem lastWriteWins_counterexample :
    (run initialState staleOverwriteTrace).apiError =
      some ("Connection Error: Is the Python server running at " ++
            API_BASE_URL ++ "?") ∧
    (run initialState staleOverwriteTrace).analysisResults =
      some (Js.num (JsNum.fin 7)) ∧
    statusOf (run initialState staleOverwriteTrace) = Status.error ∧
    (fetchAnalysis initialState
        (AxiosOutcome.ok (Js.obj [("analysis", Js.str "7")]))).apiError = none :=
  ⟨rfl, rfl, rfl, rfl⟩

/-- C9 (amended): for two overlapping submissions each resolution applies
atomically and none is discarded, but last-write-wins holds per field, not
for the whole state: the final result comes from the last successful
resolution, the final error from the last failing resolution (a later
success does not clear an earlier failure's message), and loading ends
false with the profile untouched. -/
theorem overlappingSubmissions_spec (s : SessionState) (oa ob : AxiosOutcome) :
    (run s [Event.submit, Event.submit,
            Event.resolve oa, Event.resolve ob]).isLoading = false ∧
    (run s [Event.submit, Event.submit,
            Event.resolve oa, Event.resolve ob]).userInput = s.userInput ∧
    (run s [Event.submit, Event.submit,
            Event.resolve oa, Event.resolve ob]).analysisResults =
      (match goodPayload ob with
       | some v => some v
       | none =>
         match goodPayload oa with
         | some v => some v
         | none => s.analysisResults) ∧
    (run s [Event.submit, Event.submit,
            Event.resolve oa, Event.resolve ob]).apiError =
      (match resolvedError ob with
       | some m => some m
       | none => resolvedError oa) := by
  have hrun : run s [Event.submit, Event.submit,
      Event.resolve oa, Event.resolve ob] =
      resolveStep (resolveStep (submitStart (submitStart s)) oa) ob := rfl
  refine ⟨?_, ?_, ?_, ?_⟩
  · rw [hrun]
    exact resolveStep_isLoading _ _
  · rw [hrun, resolveStep_userInput, resolveStep_userInput]
    rfl
  · rw [hrun, resolveStep_results]
    cases hgb : goodPayload ob with
    | some v => rfl
    | none =>
      rw [resolveStep_results]
      cases goodPayload oa <;> rfl
  · rw [hrun, resolveStep_apiError]
    cases hgb : resolvedError ob with
    | some m => rfl
    | none =>
      rw [resolveStep_apiError]
      cases resolvedError oa <;> rfl

end FinanceAI
